import Mathlib

/-!
Shallow embedding of `sys-utils/hwclock-rtc.c` (util-linux): the RTC
hardware-clock access layer.  Device interactions (`open`, `ioctl`,
`select`, the monotonic clock) are modelled as explicit environment
parameters; machine state that the C file keeps in file-scope statics
(`rtc_dev_fd`, `rtc_dev_name`) is threaded as an explicit state record.
-/

namespace HwclockRtc

/-! ## Errno constants (Linux asm-generic values) -/

def ENOENT : Nat := 2
def ENODEV : Nat := 19
def EINVAL : Nat := 22
def ENOTTY : Nat := 25
def EACCES : Nat := 13

/-! ## Broken-down calendar time (`struct tm`) -/

/-- The fields of C `struct tm` that the RTC layer exchanges with the
device.  `tm_isdst` is the tri-state daylight-saving flag: negative
means "unknown", `0` no, positive yes. -/
structure Tm where
  tm_sec : Int
  tm_min : Int
  tm_hour : Int
  tm_mday : Int
  tm_mon : Int
  tm_year : Int
  tm_wday : Int
  tm_yday : Int
  tm_isdst : Int
deriving DecidableEq, Repr

/-! ## ClockAccessor: `do_rtc_read_ioctl`, `read_hardware_clock_rtc`,
`set_hardware_clock_rtc` -/

/-- Result of `do_rtc_read_ioctl(rtc_fd, tm)`: the argument is what the
device's `RTC_RD_TIME` ioctl produced (`none` = the ioctl returned -1).
On success the function forces `tm->tm_isdst = -1` ("don't know whether
it's dst") before returning 0; on failure it warns and returns -1. -/
def do_rtc_read_ioctl (ioctlResult : Option Tm) : Option Tm :=
  match ioctlResult with
  | none => none
  | some tm => some { tm with tm_isdst := -1 }

/-- A simulated RTC device for the read/write operations: `openOk`
models whether `open_rtc` yields a usable descriptor, `stored` is the
time held by the device, `setFails` makes `RTC_SET_TIME` fail and
`readFails` makes `RTC_RD_TIME` fail. -/
structure RtcDevice where
  openOk : Bool
  stored : Option Tm
  setFails : Bool
  readFails : Bool
deriving DecidableEq, Repr

/-- The device's `RTC_RD_TIME` primitive: returns the stored time
unless the device fails the read. -/
def RtcDevice.rdTime (d : RtcDevice) : Option Tm :=
  if d.readFails then none else d.stored

/-- Outcome of an operation that may terminate the process via
`hwclock_exit`.  Modelled from the spec: `hwclock_exit` (defined
outside this file, in the owning utility) terminates the process with
the given status — "process termination on unrecoverable conditions
(e.g., failed open, failed clock write)". -/
inductive WriteResult where
  | success
  | processExit (code : Nat)
deriving DecidableEq, Repr

/-- `read_hardware_clock_rtc`: opens the device (`open_rtc_or_exit`
terminates the process when the open fails), issues
`do_rtc_read_ioctl` and hands the answer back via `tm`.  The first
component is `none` on a read failure (rc = -1), the second records a
process exit caused by `open_rtc_or_exit`. -/
def read_hardware_clock_rtc (d : RtcDevice) : Option Tm × Option Nat :=
  if ¬ d.openOk then (none, some 1)
  else (do_rtc_read_ioctl d.rdTime, none)

/-- `set_hardware_clock_rtc(ctl, new_broken_time)`: opens the device
(`open_rtc_or_exit`), then issues `ioctl(rtc_fd, RTC_SET_TIME,
new_broken_time)` with the caller's `struct tm` passed through
unchanged.  On ioctl failure it warns and calls `hwclock_exit(ctl,
EXIT_FAILURE)`.  Returns the device state after the call (the device
stores exactly the tm it was handed) together with the outcome. -/
def set_hardware_clock_rtc (d : RtcDevice) (new_broken_time : Tm) :
    RtcDevice × WriteResult :=
  if ¬ d.openOk then (d, .processExit 1)
  else if d.setFails then (d, .processExit 1)
  else ({ d with stored := some new_broken_time }, .success)

/-! ## DeviceLocator: `open_rtc`, `close_rtc` -/

/-- The fixed probe list `fls` of `open_rtc` (non-ia64 build). -/
def fls : List String := ["/dev/rtc0", "/dev/rtc", "/dev/misc/rtc"]

/-- The file-scope statics of the C file plus two instrumentation
counters: `probeAttempts` counts calls of the `open(2)` primitive and
`atexitRegistrations` counts executions of `atexit(close_rtc)`. -/
structure RtcState where
  rtc_dev_name : Option String
  rtc_dev_fd : Option Nat
  probeAttempts : Nat
  atexitRegistrations : Nat
deriving DecidableEq, Repr

/-- Initial state of the statics: `rtc_dev_name` null, `rtc_dev_fd`
-1, no opens attempted, no exit hook registered. -/
def initState : RtcState :=
  { rtc_dev_name := none, rtc_dev_fd := none
    probeAttempts := 0, atexitRegistrations := 0 }

/-- The relevant fields of `struct hwclock_control`. -/
structure HwclockControl where
  rtc_dev_name : Option String
  verbose : Bool
deriving DecidableEq, Repr

/-- The OS `open(2)` primitive: for a path, either a descriptor
(`Except.ok fd`) or a failure with an errno (`Except.error e`). -/
def OpenEnv : Type := String → Except Nat Nat

/-- `close_rtc`: closes the cached descriptor (if any) and resets it
to -1. -/
def close_rtc (s : RtcState) : RtcState :=
  { s with rtc_dev_fd := none }

/-- The probe loop of `open_rtc` over the candidate list: returns the
candidate at which the loop stopped, paired with that candidate's open
result (`none` when the list was exhausted), and the number of open
attempts made.  A failure with `ENOENT` or `ENODEV` continues to the
next candidate; any other failure, like a success, stops the loop. -/
def probeLoop (env : OpenEnv) : List String →
    Option (String × Except Nat Nat) × Nat
  | [] => (none, 0)
  | p :: rest =>
    match env p with
    | .ok fd => (some (p, .ok fd), 1)
    | .error e =>
      if e = ENOENT ∨ e = ENODEV then
        let r := probeLoop env rest
        (r.1, r.2 + 1)
      else
        (some (p, .error e), 1)

/-- `open_rtc(ctl)`: returns the cached descriptor when one is live;
otherwise opens the explicit `--rtc` path when given, else probes the
fixed candidate list; when the loop left no open descriptor the
nominal name falls back to the first candidate; a successful open
registers `atexit(close_rtc)`. -/
def open_rtc (ctl : HwclockControl) (env : OpenEnv) (s : RtcState) :
    RtcState × Option Nat :=
  match s.rtc_dev_fd with
  | some fd => (s, some fd)
  | none =>
    match ctl.rtc_dev_name with
    | some path =>
      let fdRes : Option Nat :=
        match env path with
        | .ok fd => some fd
        | .error _ => none
      let s1 : RtcState :=
        { s with rtc_dev_name := some path, rtc_dev_fd := fdRes,
                 probeAttempts := s.probeAttempts + 1 }
      let s2 : RtcState :=
        if fdRes.isSome then
          { s1 with atexitRegistrations := s1.atexitRegistrations + 1 }
        else s1
      (s2, fdRes)
    | none =>
      let pr := probeLoop env fls
      let fdRes : Option Nat :=
        match pr.1 with
        | some (_, .ok fd) => some fd
        | _ => none
      let nameAfterLoop : Option String :=
        match pr.1 with
        | some (p, _) => some p
        | none => s.rtc_dev_name
      let s1 : RtcState :=
        { s with rtc_dev_fd := fdRes,
                 rtc_dev_name :=
                   if fdRes.isSome then nameAfterLoop
                   else some (fls.headD ""),
                 probeAttempts := s.probeAttempts + pr.2 }
      let s2 : RtcState :=
        if fdRes.isSome then
          { s1 with atexitRegistrations := s1.atexitRegistrations + 1 }
        else s1
      (s2, fdRes)

/-- Runs a sequence of `open_rtc` calls (each with its control block
and open environment), threading the static state. -/
def runCalls (calls : List (HwclockControl × OpenEnv)) (s : RtcState) :
    RtcState :=
  calls.foldl (fun st c => (open_rtc c.1 c.2 st).1) s

/-! ## ParameterStore: alias table, `strtoku64`, `get_param_rtc`,
`set_param_rtc` -/

/-- One entry of the static parameter table (`struct hwclock_param`):
numeric id, short name, human description. -/
structure HwclockParam where
  id : Nat
  name : String
  help : String
deriving DecidableEq, Repr

/-- The static table `hwclock_params` (the C array's terminating empty
sentinel is represented by the end of the list). -/
def hwclock_params : List HwclockParam :=
  [ ⟨0, "features", "supported features"⟩,
    ⟨1, "correction", "time correction"⟩,
    ⟨2, "bsm", "backup switch mode"⟩ ]

/-- `resolve_rtc_param_alias(alias, value)`: scans the static table
for an exact (case-sensitive `strcmp`) name match; on a hit stores the
entry's id and returns 0, else returns 1.  Modelled as returning the
id on a hit. -/
def resolve_rtc_param_alias (a : String) : Option Nat :=
  (hwclock_params.find? (fun p => p.name = a)).map (fun p => p.id)

/-- Value of a hexadecimal digit character, if it is one. -/
def digitVal (c : Char) : Option Nat :=
  if 48 ≤ c.toNat ∧ c.toNat ≤ 57 then some (c.toNat - 48)
  else if 97 ≤ c.toNat ∧ c.toNat ≤ 102 then some (c.toNat - 87)
  else if 65 ≤ c.toNat ∧ c.toNat ≤ 70 then some (c.toNat - 55)
  else none

/-- Parses a nonempty digit string in the given base; fails on an
empty string or any character that is not a digit of the base. -/
def parseInBase (base : Nat) (cs : List Char) : Option Nat :=
  if cs.isEmpty then none
  else
    cs.foldl
      (fun acc c =>
        match acc, digitVal c with
        | some a, some d => if d < base then some (a * base + d) else none
        | _, _ => none)
      (some 0)

/-- Modelled from the spec: `ul_strtou64` (from the repository's
string-utility library, not part of this file) parses the whole string
as an unsigned 64-bit integer literal "in arbitrary base (auto-detected
radix, e.g. leading `0x`/`0`)": a `0x`/`0X` prefix selects base 16, a
leading `0` base 8, otherwise base 10; an empty string, a stray
character or a value outside 64 bits fails.  Only the auto-radix
(base 0) usage, the one this file makes, is modelled. -/
def ul_strtou64 (str : String) : Option Nat :=
  let parsed : Option Nat :=
    match str.toList with
    | '0' :: 'x' :: rest => parseInBase 16 rest
    | '0' :: 'X' :: rest => parseInBase 16 rest
    | '0' :: [] => some 0
    | '0' :: rest => parseInBase 8 rest
    | cs => parseInBase 10 cs
  match parsed with
  | some v => if v < 2 ^ 64 then some v else none
  | none => none

/-- `strtoku64(str, num, base)` as written in the source:
`return ul_strtou64(str, (uint64_t *) &num, base);`.  Because the cast
is applied to `&num` — the address of the local pointer parameter —
the parsed value is written over that local pointer instead of through
it, so the caller's destination is never updated; only the
success/failure return value propagates.  Modelled as: returns whether
parsing succeeded together with the (unchanged) destination value. -/
def strtoku64 (str : String) (num : Nat) : Bool × Nat :=
  ((ul_strtou64 str).isSome, num)

/-- Shared name-resolution step of `get_param_rtc`/`set_param_rtc`:
`resolve_rtc_param_alias(tok, &param.param) != 0 &&
strtoku64(tok, &param.param, 0) != 0` with `param.param` initially
`p0`; yields the resulting `param.param` on success and `none` when
both resolutions fail. -/
def resolveParamName (tok : String) (p0 : Nat) : Option Nat :=
  match resolve_rtc_param_alias tok with
  | some v => some v
  | none =>
    let r := strtoku64 tok p0
    if r.1 then some r.2 else none

/-- A simulated device for the parameter operations: `openOk` models
`open_rtc`, `paramGet` maps a parameter id to the `uvalue` the
`RTC_PARAM_GET` ioctl fills in (`none` = ioctl failure), `paramSet`
tells whether `RTC_PARAM_SET` accepts a given id/value pair. -/
structure ParamDevice where
  openOk : Bool
  paramGet : Nat → Option Nat
  paramSet : Nat → Nat → Bool

/-- Failure causes of `get_param_rtc` (the C function returns 1 in all
of them; the cause is distinguished by which warning is printed). -/
inductive GetParamError where
  | invalidName
  | openFailed
  | ioctlFailed
deriving DecidableEq, Repr

/-- Observable outcome of one `get_param_rtc` call: the error cause
(`none` = returned 0), what was stored through the `id` and `value`
out-pointers (`none` = location left untouched), and the id sent to
the device (`none` = no ioctl was issued). -/
structure GetParamResult where
  err : Option GetParamError
  idOut : Option Nat
  valueOut : Option Nat
  exchangedId : Option Nat
deriving DecidableEq, Repr

/-- `get_param_rtc(ctl, name, id, value)`: resolves `name` (alias
first, then `strtoku64` numeric fallback) into `param.param`
(initialised to 0), opens the device, issues `RTC_PARAM_GET`, and only
then stores `param.param` through `id` and `param.uvalue` through
`value`, each only when the pointer is non-null.  `idPtr`/`valuePtr`
model whether those pointers are non-null. -/
def get_param_rtc (dev : ParamDevice) (name : String)
    (idPtr valuePtr : Bool) : GetParamResult :=
  match resolveParamName name 0 with
  | none =>
    { err := some .invalidName, idOut := none, valueOut := none,
      exchangedId := none }
  | some pid =>
    if ¬ dev.openOk then
      { err := some .openFailed, idOut := none, valueOut := none,
        exchangedId := none }
    else
      match dev.paramGet pid with
      | none =>
        { err := some .ioctlFailed, idOut := none, valueOut := none,
          exchangedId := some pid }
      | some uvalue =>
        { err := none,
          idOut := if idPtr then some pid else none,
          valueOut := if valuePtr then some uvalue else none,
          exchangedId := some pid }

/-- Worker of `strtokTokens`: `acc` holds the characters of the token
being assembled, in reverse. -/
def strtokAux (acc : List Char) : List Char → List String
  | [] => if acc.isEmpty then [] else [String.mk acc.reverse]
  | c :: rest =>
    if c = '=' then
      if acc.isEmpty then strtokAux [] rest
      else String.mk acc.reverse :: strtokAux [] rest
    else strtokAux (c :: acc) rest

/-- `strtok(s, "=")` token sequence: maximal runs of non-`'='`
characters, in order (runs of delimiters collapse, leading/trailing
delimiters produce no empty tokens). -/
def strtokTokens (s : String) : List String :=
  strtokAux [] s.toList

/-- Failure causes of `set_param_rtc`, distinguished by which warning
the C function prints before returning 1. -/
inductive SetParamError where
  | invalidName
  | missingValue
  | invalidValue
  | openFailed
  | ioctlFailed
deriving DecidableEq, Repr

/-- Observable outcome of one `set_param_rtc` call: the error cause
(`none` = returned 0) and the `(param.param, param.uvalue)` pair sent
to the device (`none` = no ioctl was issued). -/
structure SetParamResult where
  err : Option SetParamError
  exchanged : Option (Nat × Nat)
deriving DecidableEq, Repr

/-- `set_param_rtc(ctl, opt0)`: tokenises a copy of `opt0` with
`strtok(.., "=")`; resolves the first token as the parameter name
(alias, then numeric fallback) into `param.param`; requires a second
token and parses it with `strtoku64` into `param.uvalue` (both fields
initialised to 0); then opens the device and issues `RTC_PARAM_SET`.
The result is `none` for an input with no token at all (the source
would pass `strtok`'s NULL to `strcmp`, which is undefined and not
modelled). -/
def set_param_rtc (dev : ParamDevice) (opt0 : String) :
    Option SetParamResult :=
  let toks := strtokTokens opt0
  match toks.head? with
  | none => none
  | some tok1 =>
    match resolveParamName tok1 0 with
    | none => some { err := some .invalidName, exchanged := none }
    | some pid =>
      match toks[1]? with
      | none => some { err := some .missingValue, exchanged := none }
      | some tok2 =>
        let r := strtoku64 tok2 0
        if ¬ r.1 then
          some { err := some .invalidValue, exchanged := none }
        else if ¬ dev.openOk then
          some { err := some .openFailed, exchanged := none }
        else if dev.paramSet pid r.2 then
          some { err := none, exchanged := some (pid, r.2) }
        else
          some { err := some .ioctlFailed, exchanged := some (pid, r.2) }

/-! ## TickSynchronizer: `busywait_for_rtc_clock_tick`,
`synchronize_to_clock_tick_rtc` -/

/-- Structured outcome of the tick-synchronisation paths (the C
functions return 1 for every failure; the cause is distinguished by
which warning is printed). -/
inductive TickOutcome where
  | success
  | ioError
  | timedOut
deriving DecidableEq, Repr

/-- A simulated device for the busy-wait path: `reads i` is what the
`RTC_RD_TIME` ioctl of the i-th read produces (read 0 is the baseline
read, reads 1, 2, … the loop's re-reads), and `mono i` is the value,
in microseconds, that the i-th `gettime_monotonic` call returns (call
0 fills `begin`, call i ≥ 1 is made in loop iteration i). -/
structure BusyDevice where
  reads : Nat → Option Tm
  mono : Nat → Nat

/-- The `do { … } while (1)` loop of `busywait_for_rtc_clock_tick`,
started at iteration `i`: re-read via `do_rtc_read_ioctl`; break on a
failed read (rc ≠ 0, reported as IoError after the loop) or on a
seconds field differing from the baseline's (`start_time.tm_sec !=
nowtime.tm_sec` — only `tm_sec` is compared); otherwise compare the
elapsed monotonic time against 1.5 s (1 500 000 µs) and time out when
it is exceeded.  `fuel` bounds the number of iterations modelled;
`none` means the loop did not decide within `fuel` iterations. -/
def busyLoop (dev : BusyDevice) (startSec : Int) (beginT : Nat) :
    Nat → Nat → Option TickOutcome
  | 0, _ => none
  | fuel + 1, i =>
    match do_rtc_read_ioctl (dev.reads i) with
    | none => some .ioError
    | some nowtime =>
      if nowtime.tm_sec ≠ startSec then some .success
      else if beginT + 1500000 < dev.mono i then some .timedOut
      else busyLoop dev startSec beginT fuel (i + 1)

/-- `busywait_for_rtc_clock_tick(ctl, rtc_fd)`: reads a baseline time
(a failure of that read returns 1 at once, modelled `ioError`), reads
the monotonic clock into `begin`, and enters the re-read loop. -/
def busywait_for_rtc_clock_tick (dev : BusyDevice) (fuel : Nat) :
    Option TickOutcome :=
  match do_rtc_read_ioctl (dev.reads 0) with
  | none => some .ioError
  | some start_time =>
    busyLoop dev start_time.tm_sec (dev.mono 0) fuel 1

/-- Iteration `i` of the busy-wait loop decides nothing: its re-read
succeeds, the seconds field still equals the baseline value `s`, and
the monotonic time is within the 1.5-second ceiling over `b`. -/
def quietAt (dev : BusyDevice) (s : Int) (b : Nat) (i : Nat) : Prop :=
  ∃ tm, dev.reads i = some tm ∧ tm.tm_sec = s ∧
    dev.mono i ≤ b + 1500000

/-- Outcome of the `select(2)` wait primitive: a positive return
(descriptor ready), zero (timeout) or a negative return (error). -/
inductive SelectOutcome where
  | ready
  | timeout
  | failed
deriving DecidableEq, Repr

/-- A simulated device for `synchronize_to_clock_tick_rtc`: `openOk`
models `open_rtc`; `uieOn` is the outcome of `ioctl(rtc_fd,
RTC_UIE_ON, 0)` (`none` = success, `some e` = failure with errno `e`);
`selectAt t` is what `select` with a `t`-second timeout returns;
`uieOffOk` is whether `ioctl(rtc_fd, RTC_UIE_OFF, 0)` succeeds;
`busy` drives the busy-wait fallback. -/
structure SyncDevice where
  openOk : Bool
  uieOn : Option Nat
  selectAt : Nat → SelectOutcome
  uieOffOk : Bool
  busy : BusyDevice

/-- Outcome of `synchronize_to_clock_tick_rtc` (return value plus the
distinguishing warning). -/
inductive SyncOutcome where
  | success
  | timedOut
  | ioError
  | openFailed
deriving DecidableEq, Repr

/-- Embeds a busy-wait outcome into the synchroniser's outcome (the C
code simply propagates `busywait_for_rtc_clock_tick`'s return value as
its own). -/
def tickToSync : TickOutcome → SyncOutcome
  | .success => .success
  | .ioError => .ioError
  | .timedOut => .timedOut

/-- `synchronize_to_clock_tick_rtc(ctl)`: opens the device (a failure
returns 1 after a warning); turns on update interrupts with
`RTC_UIE_ON`; on success waits with `select` under a 10-second timeout
(ready ⇒ ret 0; zero ⇒ "timed out" warning; negative ⇒ "failed"
warning) and then turns interrupts back off, a failure of `RTC_UIE_OFF`
being only warned about; when `RTC_UIE_ON` failed with `ENOTTY` or
`EINVAL` it falls back to the busy-wait loop; any other `RTC_UIE_ON`
errno is warned about and returns 1. -/
def synchronize_to_clock_tick_rtc (dev : SyncDevice) (fuel : Nat) :
    Option SyncOutcome :=
  if ¬ dev.openOk then some .openFailed
  else
    match dev.uieOn with
    | none =>
      some (match dev.selectAt 10 with
        | .ready => SyncOutcome.success
        | .timeout => SyncOutcome.timedOut
        | .failed => SyncOutcome.ioError)
    | some e =>
      if e = ENOTTY ∨ e = EINVAL then
        (busywait_for_rtc_clock_tick dev.busy fuel).map tickToSync
      else some .ioError

/-! ## Concrete devices and environments used in the theorems -/

/-- A parameter device that opens and answers every exchange with the
value 42. -/
def okParamDevice : ParamDevice :=
  { openOk := true, paramGet := fun _ => some 42,
    paramSet := fun _ _ => true }

/-- A parameter device whose open fails. -/
def openFailParamDevice : ParamDevice :=
  { openOk := false, paramGet := fun _ => some 42,
    paramSet := fun _ _ => true }

/-- A sample broken-down time whose daylight-saving flag is "yes". -/
def tmSample : Tm :=
  { tm_sec := 30, tm_min := 15, tm_hour := 10, tm_mday := 5,
    tm_mon := 3, tm_year := 124, tm_wday := 2, tm_yday := 95,
    tm_isdst := 1 }

/-- An RTC device that opens and accepts every read and write. -/
def okRtcDevice : RtcDevice :=
  { openOk := true, stored := none, setFails := false,
    readFails := false }

/-- An RTC device that opens but fails `RTC_SET_TIME`. -/
def setFailRtcDevice : RtcDevice :=
  { openOk := true, stored := none, setFails := true,
    readFails := false }

/-- A broken-down time with only the seconds field populated. -/
def secTm (s : Int) : Tm :=
  { tm_sec := s, tm_min := 0, tm_hour := 0, tm_mday := 0, tm_mon := 0,
    tm_year := 0, tm_wday := 0, tm_yday := 0, tm_isdst := 0 }

/-- Busy-wait device whose seconds field changes at the third re-read
while the monotonic clock advances 100 µs per call. -/
def busyChangeAt3 : BusyDevice :=
  { reads := fun i => some (secTm (if i < 3 then 7 else 8)),
    mono := fun i => i * 100 }

/-- Like `busyChangeAt3` but with a different minutes field on every
read; only the seconds field agrees with `busyChangeAt3`. -/
def busyChangeAt3b : BusyDevice :=
  { reads := fun i => some { secTm (if i < 3 then 7 else 8) with
      tm_min := 59 },
    mono := fun i => i * 100 }

/-- Busy-wait device whose second re-read fails. -/
def busyReadFail : BusyDevice :=
  { reads := fun i => if i = 2 then none else some (secTm 7),
    mono := fun i => i * 100 }

/-- Busy-wait device that never ticks while the monotonic clock
advances 0.4 s per call: the 1.5 s ceiling is crossed at the fourth
loop iteration. -/
def busyStuck : BusyDevice :=
  { reads := fun _ => some (secTm 7), mono := fun i => i * 400000 }

/-- Builds a synchroniser device that opens, with the given
`RTC_UIE_ON` outcome, constant `select` outcome and busy-wait
fallback. -/
def mkSyncDev (u : Option Nat) (sel : SelectOutcome)
    (bd : BusyDevice) : SyncDevice :=
  { openOk := true, uieOn := u, selectAt := fun _ => sel,
    uieOffOk := true, busy := bd }

/-- Open environment in which the first candidate fails with `EACCES`
and the second would open with descriptor 3. -/
def envAccesThenOk : OpenEnv := fun p =>
  if p = "/dev/rtc0" then .error EACCES
  else if p = "/dev/rtc" then .ok 3
  else .error ENOENT

/-- Open environment in which the first candidate is missing and the
second opens with descriptor 3. -/
def envSkipThenOk : OpenEnv := fun p =>
  if p = "/dev/rtc0" then .error ENOENT
  else if p = "/dev/rtc" then .ok 3
  else .error ENOENT

/-- Open environment in which every path is missing. -/
def envAllMissing : OpenEnv := fun _ => .error ENOENT

/-- A control block requesting the probe list (no `--rtc` path). -/
def probeCtl : HwclockControl :=
  { rtc_dev_name := none, verbose := false }

/-! ## Theorems for the claims -/

/-- C1: code-bug evaluation.  "999" is no alias and parses as the
integer 999 (`ul_strtou64 "999" = some 999`), so by the claim
`get_param_rtc` should exchange id 999 with the device; instead it
exchanges and reports id 0, because `strtoku64` writes the parsed
value over its local pointer (`(uint64_t *) &num`) and `param.param`
keeps its zero initialiser.  The alias path ("correction" ↦ 1) and the
InvalidName path ("bogus", no exchange) behave as claimed. -/
theorem C1_numeric_fallback_bug :
    resolve_rtc_param_alias "999" = none ∧
    ul_strtou64 "999" = some 999 ∧
    get_param_rtc okParamDevice "999" true true =
      { err := none, idOut := some 0, valueOut := some 42,
        exchangedId := some 0 } ∧
    (get_param_rtc okParamDevice "999" true true).idOut ≠ some 999 ∧
    get_param_rtc okParamDevice "correction" true true =
      { err := none, idOut := some 1, valueOut := some 42,
        exchangedId := some 1 } ∧
    get_param_rtc okParamDevice "bogus" true true =
      { err := some .invalidName, idOut := none, valueOut := none,
        exchangedId := none } :=
  ⟨rfl, rfl, rfl, by decide, rfl, rfl⟩

/-- C4: code-bug evaluation.  "correction=5" splits into name
"correction" (alias id 1) and value token "5", which parses as 5
(`ul_strtou64 "5" = some 5`); by the claim the pair (1, 5) should be
exchanged with the device, but the broken `strtoku64` discards the
parsed value and the exchanged pair is (1, 0).  The missing-`=` path
("correction") and the bad-name path ("bogus=5") behave as claimed. -/
theorem C4_value_parse_bug :
    ul_strtou64 "5" = some 5 ∧
    set_param_rtc okParamDevice "correction=5" =
      some { err := none, exchanged := some (1, 0) } ∧
    set_param_rtc okParamDevice "correction=5" ≠
      some { err := none, exchanged := some (1, 5) } ∧
    set_param_rtc okParamDevice "correction" =
      some { err := some .missingValue, exchanged := none } ∧
    set_param_rtc okParamDevice "bogus=5" =
      some { err := some .invalidName, exchanged := none } :=
  ⟨rfl, rfl, by decide, rfl, rfl⟩

/-- C3 counterexample: on a device whose "set time" primitive fails,
`set_hardware_clock_rtc` does not return the error to its caller — it
terminates the process (`hwclock_exit(ctl, EXIT_FAILURE)`) itself,
contradicting the claim that process termination on a failed clock
write is performed only by the calling layer. -/
theorem C3_counterexample :
    (set_hardware_clock_rtc setFailRtcDevice tmSample).2 =
      .processExit 1 := rfl

/-- C3 amended: when the "set time" primitive fails, the write
operation reports the error and then itself terminates the process
with `EXIT_FAILURE`; only on success does it return (with 0) to the
caller. -/
theorem C3_amended (d : RtcDevice) (t : Tm) (hopen : d.openOk = true) :
    (d.setFails = true →
      (set_hardware_clock_rtc d t).2 = .processExit 1) ∧
    (d.setFails = false →
      (set_hardware_clock_rtc d t).2 = .success) := by
  constructor <;> intro h <;> simp [set_hardware_clock_rtc, hopen, h]

/-- C3 witness: the amended statement evaluated on a device that fails
the write and on one that accepts it. -/
theorem C3_witness :
    (set_hardware_clock_rtc setFailRtcDevice tmSample).2 =
      .processExit 1 ∧
    (set_hardware_clock_rtc okRtcDevice tmSample).2 = .success :=
  ⟨(C3_amended setFailRtcDevice tmSample rfl).1 rfl,
   (C3_amended okRtcDevice tmSample rfl).2 rfl⟩

/-- C7 counterexample: `set_hardware_clock_rtc` hands the caller's
`struct tm` to the device unchanged — writing `tmSample`, whose
daylight-saving flag is 1 ("yes"), stores a time whose flag is still
1, not the claimed forced "unknown" (-1). -/
theorem C7_counterexample :
    (set_hardware_clock_rtc okRtcDevice tmSample).1.stored =
      some tmSample ∧
    tmSample.tm_isdst = 1 ∧ tmSample.tm_isdst ≠ -1 :=
  ⟨rfl, rfl, by decide⟩

/-- C7 amended: the read operation forces the daylight-saving flag of
every returned CalendarTime to "unknown" (-1); the write operation
passes the caller-supplied CalendarTime to the device unchanged,
including its daylight-saving flag. -/
theorem C7_amended :
    (∀ (d : RtcDevice) (tm : Tm),
      (read_hardware_clock_rtc d).1 = some tm → tm.tm_isdst = -1) ∧
    (∀ (d : RtcDevice) (t : Tm), d.openOk = true → d.setFails = false →
      (set_hardware_clock_rtc d t).1.stored = some t) := by
  constructor
  · intro d tm h
    by_cases hd : d.openOk
    · simp only [read_hardware_clock_rtc, hd, not_true_eq_false,
        if_false] at h
      cases hr : d.rdTime with
      | none => rw [hr] at h; simp [do_rtc_read_ioctl] at h
      | some x =>
        rw [hr] at h
        simp only [do_rtc_read_ioctl, Option.some.injEq] at h
        rw [← h]
    · simp [read_hardware_clock_rtc, hd] at h
  · intro d t h1 h2
    simp [set_hardware_clock_rtc, h1, h2]

/-- C7 witness: the amended statement evaluated on a device holding
`tmSample` (read yields flag -1) and on a plain write of `tmSample`. -/
theorem C7_witness :
    ({ tmSample with tm_isdst := -1 } : Tm).tm_isdst = -1 ∧
    (set_hardware_clock_rtc okRtcDevice tmSample).1.stored =
      some tmSample :=
  ⟨C7_amended.1
      { okRtcDevice with stored := some tmSample }
      { tmSample with tm_isdst := -1 } rfl,
   C7_amended.2 okRtcDevice tmSample rfl rfl⟩

/-- C8: round-trip.  On a device that opens and faithfully accepts
writes and reads, writing a CalendarTime `t` and reading back yields a
time agreeing with `t` on year, month, day, hour, minute, second,
weekday and year-day, with the daylight-saving flag forced to
"unknown" (-1) regardless of `t`'s flag. -/
theorem C8_round_trip (d : RtcDevice) (t : Tm)
    (hopen : d.openOk = true) (hset : d.setFails = false)
    (hread : d.readFails = false) :
    ∃ r : Tm,
      (read_hardware_clock_rtc (set_hardware_clock_rtc d t).1).1 =
        some r ∧
      r.tm_year = t.tm_year ∧ r.tm_mon = t.tm_mon ∧
      r.tm_mday = t.tm_mday ∧ r.tm_hour = t.tm_hour ∧
      r.tm_min = t.tm_min ∧ r.tm_sec = t.tm_sec ∧
      r.tm_wday = t.tm_wday ∧ r.tm_yday = t.tm_yday ∧
      r.tm_isdst = -1 := by
  refine ⟨{ t with tm_isdst := -1 }, ?_, rfl, rfl, rfl, rfl, rfl, rfl,
    rfl, rfl, rfl⟩
  simp [set_hardware_clock_rtc, read_hardware_clock_rtc,
    do_rtc_read_ioctl, RtcDevice.rdTime, hopen, hset, hread]

/-- C8 witness: the round-trip theorem evaluated at `tmSample` on the
always-working device. -/
theorem C8_witness :
    ∃ r : Tm,
      (read_hardware_clock_rtc
        (set_hardware_clock_rtc okRtcDevice tmSample).1).1 = some r ∧
      r.tm_year = tmSample.tm_year ∧ r.tm_mon = tmSample.tm_mon ∧
      r.tm_mday = tmSample.tm_mday ∧ r.tm_hour = tmSample.tm_hour ∧
      r.tm_min = tmSample.tm_min ∧ r.tm_sec = tmSample.tm_sec ∧
      r.tm_wday = tmSample.tm_wday ∧ r.tm_yday = tmSample.tm_yday ∧
      r.tm_isdst = -1 :=
  C8_round_trip okRtcDevice tmSample rfl rfl rfl

/-- C10: `get_param_rtc` is atomic in its outputs: on every failure
path (unresolvable name, failed open, failed exchange) the id and
value output locations are left untouched; on success each is written
exactly when its pointer is non-null. -/
theorem C10_outputs_atomic (dev : ParamDevice) (name : String)
    (idPtr valuePtr : Bool) :
    ((get_param_rtc dev name idPtr valuePtr).err.isSome →
      (get_param_rtc dev name idPtr valuePtr).idOut = none ∧
      (get_param_rtc dev name idPtr valuePtr).valueOut = none) ∧
    ((get_param_rtc dev name idPtr valuePtr).err = none →
      ((get_param_rtc dev name idPtr valuePtr).idOut.isSome ↔
        idPtr = true) ∧
      ((get_param_rtc dev name idPtr valuePtr).valueOut.isSome ↔
        valuePtr = true)) := by
  unfold get_param_rtc
  cases hres : resolveParamName name 0 with
  | none => simp
  | some pid =>
    by_cases hopen : dev.openOk
    · cases hget : dev.paramGet pid with
      | none => simp [hopen, hget]
      | some v =>
        cases idPtr <;> cases valuePtr <;> simp [hopen, hget]
    · simp [hopen]

/-- C10 witness: atomicity evaluated on a failing open (outputs
untouched) and on a successful exchange with both pointers non-null
and with both null. -/
theorem C10_witness :
    ((get_param_rtc openFailParamDevice "features" true true).idOut =
        none ∧
      (get_param_rtc openFailParamDevice "features" true true).valueOut =
        none) ∧
    (((get_param_rtc okParamDevice "features" true true).idOut.isSome ↔
        true = true) ∧
      ((get_param_rtc okParamDevice "features" true true).valueOut.isSome ↔
        true = true)) ∧
    (((get_param_rtc okParamDevice "features" false false).idOut.isSome ↔
        false = true) ∧
      ((get_param_rtc okParamDevice "features" false false).valueOut.isSome ↔
        false = true)) :=
  ⟨(C10_outputs_atomic openFailParamDevice "features" true true).1 rfl,
   (C10_outputs_atomic okParamDevice "features" true true).2 rfl,
   (C10_outputs_atomic okParamDevice "features" false false).2 rfl⟩

/-- C5: `synchronize_to_clock_tick_rtc` branches exactly on the
outcome of `RTC_UIE_ON`: on success it waits on `select` with a
10-second timeout — readiness yields success whatever the subsequent
`RTC_UIE_OFF` does, a zero return yields TimedOut, a negative return
yields IoError; a failure with `ENOTTY` or `EINVAL` (the
operation-not-supported class) falls back to the busy-wait path and
propagates its outcome; any other failure yields IoError with no
fallback. -/
theorem C5_wait_for_tick_branches (dev : SyncDevice) (fuel : Nat)
    (hopen : dev.openOk = true) :
    (dev.uieOn = none →
      (∀ b : Bool, dev.selectAt 10 = .ready →
        synchronize_to_clock_tick_rtc { dev with uieOffOk := b } fuel =
          some .success) ∧
      (dev.selectAt 10 = .timeout →
        synchronize_to_clock_tick_rtc dev fuel = some .timedOut) ∧
      (dev.selectAt 10 = .failed →
        synchronize_to_clock_tick_rtc dev fuel = some .ioError)) ∧
    (∀ e, dev.uieOn = some e → (e = ENOTTY ∨ e = EINVAL) →
      synchronize_to_clock_tick_rtc dev fuel =
        (busywait_for_rtc_clock_tick dev.busy fuel).map tickToSync) ∧
    (∀ e, dev.uieOn = some e → e ≠ ENOTTY → e ≠ EINVAL →
      synchronize_to_clock_tick_rtc dev fuel = some .ioError) := by
  refine ⟨fun hu => ⟨fun b hsel => ?_, fun hsel => ?_, fun hsel => ?_⟩,
          fun e hu hcls => ?_, fun e hu h1 h2 => ?_⟩ <;>
    simp_all [synchronize_to_clock_tick_rtc]

/-- C5 witness: the branch theorem evaluated on concrete devices for
each of the five branches (ready with a failing disable, timeout,
select error, `ENOTTY` fallback, and an `EACCES` enable failure). -/
theorem C5_witness :
    synchronize_to_clock_tick_rtc
      { mkSyncDev none .ready busyChangeAt3 with uieOffOk := false }
      10 = some .success ∧
    synchronize_to_clock_tick_rtc (mkSyncDev none .timeout busyChangeAt3)
      10 = some .timedOut ∧
    synchronize_to_clock_tick_rtc (mkSyncDev none .failed busyChangeAt3)
      10 = some .ioError ∧
    synchronize_to_clock_tick_rtc
      (mkSyncDev (some ENOTTY) .ready busyChangeAt3) 10 =
      (busywait_for_rtc_clock_tick busyChangeAt3 10).map tickToSync ∧
    synchronize_to_clock_tick_rtc
      (mkSyncDev (some EACCES) .ready busyChangeAt3) 10 =
      some .ioError :=
  ⟨((C5_wait_for_tick_branches (mkSyncDev none .ready busyChangeAt3) 10
      rfl).1 rfl).1 false rfl,
   ((C5_wait_for_tick_branches (mkSyncDev none .timeout busyChangeAt3) 10
      rfl).1 rfl).2.1 rfl,
   ((C5_wait_for_tick_branches (mkSyncDev none .failed busyChangeAt3) 10
      rfl).1 rfl).2.2 rfl,
   (C5_wait_for_tick_branches (mkSyncDev (some ENOTTY) .ready
      busyChangeAt3) 10 rfl).2.1 ENOTTY rfl (Or.inl rfl),
   (C5_wait_for_tick_branches (mkSyncDev (some EACCES) .ready
      busyChangeAt3) 10 rfl).2.2 EACCES rfl (by decide) (by decide)⟩

/-- A candidate failing with `ENOENT` or `ENODEV` is skipped: the loop
continues on the tail, with one more open attempt counted. -/
theorem probeLoop_skip (env : OpenEnv) (p : String) (rest : List String)
    (e : Nat) (he : env p = .error e) (hskip : e = ENOENT ∨ e = ENODEV) :
    probeLoop env (p :: rest) =
      ((probeLoop env rest).1, (probeLoop env rest).2 + 1) := by
  simp only [probeLoop, he]
  rw [if_pos hskip]

/-- A prefix of skipped candidates only adds open attempts. -/
theorem probeLoop_pre (env : OpenEnv) (pre l : List String)
    (hpre : ∀ q ∈ pre, ∃ e, env q = .error e ∧
      (e = ENOENT ∨ e = ENODEV)) :
    probeLoop env (pre ++ l) =
      ((probeLoop env l).1, (probeLoop env l).2 + pre.length) := by
  induction pre with
  | nil => simp
  | cons q pre ih =>
    obtain ⟨e, he, hskip⟩ := hpre q (by simp)
    rw [List.cons_append, probeLoop_skip env q _ e he hskip,
      ih (fun r hr => hpre r (by simp [hr]))]
    simp
    omega

/-- A candidate that opens stops the loop with its descriptor. -/
theorem probeLoop_ok (env : OpenEnv) (p : String) (rest : List String)
    (fd : Nat) (he : env p = .ok fd) :
    probeLoop env (p :: rest) = (some (p, .ok fd), 1) := by
  simp [probeLoop, he]

/-- A candidate failing with any errno other than `ENOENT`/`ENODEV`
stops the loop at that candidate: no later candidate is tried. -/
theorem probeLoop_stop (env : OpenEnv) (p : String) (rest : List String)
    (e : Nat) (he : env p = .error e) (h1 : e ≠ ENOENT)
    (h2 : e ≠ ENODEV) :
    probeLoop env (p :: rest) = (some (p, .error e), 1) := by
  simp [probeLoop, he, h1, h2]

/-- When every candidate is skipped the loop exhausts the list. -/
theorem probeLoop_none (env : OpenEnv) (l : List String)
    (h : ∀ q ∈ l, ∃ e, env q = .error e ∧ (e = ENOENT ∨ e = ENODEV)) :
    probeLoop env l = (none, l.length) := by
  induction l with
  | nil => rfl
  | cons q rest ih =>
    obtain ⟨e, he, hskip⟩ := h q (by simp)
    rw [probeLoop_skip env q rest e he hskip,
      ih (fun r hr => h r (by simp [hr]))]
    simp

/-- C2 counterexample: with the first candidate failing with `EACCES`
and the second candidate openable (descriptor 3), `open_rtc` with no
explicit path does not skip to the second candidate as the claim
states — the probe stops at the first candidate and no handle is
returned. -/
theorem C2_counterexample :
    envAccesThenOk "/dev/rtc0" = .error EACCES ∧
    envAccesThenOk "/dev/rtc" = .ok 3 ∧
    (open_rtc probeCtl envAccesThenOk initState).2 = none ∧
    (open_rtc probeCtl envAccesThenOk initState).1.probeAttempts = 1 :=
  ⟨rfl, rfl, rfl, rfl⟩

/-- C2 amended: with no explicit path, `open_rtc` tries the fixed
candidate list in order and returns the descriptor of the first path
that opens; a candidate failing with `ENOENT` ("does not exist") or
`ENODEV` ("no such device") is skipped and the next candidate tried; a
candidate failing with any other error stops the probe at that
candidate (reported if verbose) with no handle returned and no later
candidate tried; whenever no handle is obtained the nominal device
name for diagnostics is the first candidate of the list. -/
theorem C2_amended (v : Bool) (env : OpenEnv) :
    (∀ pre p post, fls = pre ++ p :: post →
      (∀ q ∈ pre, ∃ e, env q = .error e ∧ (e = ENOENT ∨ e = ENODEV)) →
      (∀ fd, env p = .ok fd →
        (open_rtc ⟨none, v⟩ env initState).2 = some fd ∧
        (open_rtc ⟨none, v⟩ env initState).1.rtc_dev_name = some p ∧
        (open_rtc ⟨none, v⟩ env initState).1.probeAttempts =
          pre.length + 1) ∧
      (∀ e, env p = .error e → e ≠ ENOENT → e ≠ ENODEV →
        (open_rtc ⟨none, v⟩ env initState).2 = none ∧
        (open_rtc ⟨none, v⟩ env initState).1.rtc_dev_name =
          some (fls.headD "") ∧
        (open_rtc ⟨none, v⟩ env initState).1.probeAttempts =
          pre.length + 1)) ∧
    ((∀ q ∈ fls, ∃ e, env q = .error e ∧ (e = ENOENT ∨ e = ENODEV)) →
      (open_rtc ⟨none, v⟩ env initState).2 = none ∧
      (open_rtc ⟨none, v⟩ env initState).1.rtc_dev_name =
        some (fls.headD "") ∧
      (open_rtc ⟨none, v⟩ env initState).1.probeAttempts =
        fls.length) := by
  constructor
  · intro pre p post hdec hpre
    constructor
    · intro fd he
      have hpr : probeLoop env fls =
          (some (p, .ok fd), pre.length + 1) := by
        rw [hdec, probeLoop_pre env pre _ hpre,
          probeLoop_ok env p post fd he]
        simp [Nat.add_comm]
      simp [open_rtc, initState, hpr]
    · intro e he h1 h2
      have hpr : probeLoop env fls =
          (some (p, .error e), pre.length + 1) := by
        rw [hdec, probeLoop_pre env pre _ hpre,
          probeLoop_stop env p post e he h1 h2]
        simp [Nat.add_comm]
      simp [open_rtc, initState, hpr]
  · intro hall
    have hpr : probeLoop env fls = (none, fls.length) :=
      probeLoop_none env fls hall
    simp [open_rtc, initState, hpr]

/-- C2 witness: the amended behaviour on three concrete environments —
skip-then-open (returns descriptor 3 from the second candidate after
two attempts), stop-on-`EACCES` (no handle, name falls back to the
first candidate after one attempt), all-missing (no handle, name is
the first candidate after three attempts). -/
theorem C2_witness :
    ((open_rtc ⟨none, false⟩ envSkipThenOk initState).2 = some 3 ∧
      (open_rtc ⟨none, false⟩ envSkipThenOk initState).1.rtc_dev_name =
        some "/dev/rtc" ∧
      (open_rtc ⟨none, false⟩ envSkipThenOk initState).1.probeAttempts =
        2) ∧
    ((open_rtc ⟨none, false⟩ envAccesThenOk initState).2 = none ∧
      (open_rtc ⟨none, false⟩ envAccesThenOk initState).1.rtc_dev_name =
        some (fls.headD "") ∧
      (open_rtc ⟨none, false⟩ envAccesThenOk initState).1.probeAttempts =
        1) ∧
    ((open_rtc ⟨none, false⟩ envAllMissing initState).2 = none ∧
      (open_rtc ⟨none, false⟩ envAllMissing initState).1.rtc_dev_name =
        some (fls.headD "") ∧
      (open_rtc ⟨none, false⟩ envAllMissing initState).1.probeAttempts =
        fls.length) :=
  ⟨((C2_amended false envSkipThenOk).1 ["/dev/rtc0"] "/dev/rtc"
      ["/dev/misc/rtc"] rfl
      (by intro q hq; simp at hq; subst hq
          exact ⟨ENOENT, rfl, Or.inl rfl⟩)).1 3 rfl,
   ((C2_amended false envAccesThenOk).1 [] "/dev/rtc0"
      ["/dev/rtc", "/dev/misc/rtc"] rfl (by intro q hq; simp at hq)).2
      EACCES rfl (by decide) (by decide),
   (C2_amended false envAllMissing).2
      (by intro q hq; exact ⟨ENOENT, rfl, Or.inl rfl⟩)⟩

/-- With a live cached descriptor, `open_rtc` returns it at once: the
state — name, descriptor, attempt counter, registration counter — is
untouched and no open is attempted. -/
theorem open_rtc_cached (c : HwclockControl) (env : OpenEnv)
    (s : RtcState) (fd : Nat) (h : s.rtc_dev_fd = some fd) :
    open_rtc c env s = (s, some fd) := by
  unfold open_rtc
  rw [h]

/-- One `open_rtc` call preserves the invariant "the exit hook has
been registered exactly once iff a descriptor is live, never more". -/
theorem open_rtc_atexit_inv (c : HwclockControl) (env : OpenEnv)
    (s : RtcState)
    (h : s.atexitRegistrations = if s.rtc_dev_fd.isSome then 1 else 0) :
    (open_rtc c env s).1.atexitRegistrations =
      if (open_rtc c env s).1.rtc_dev_fd.isSome then 1 else 0 := by
  unfold open_rtc
  cases hfd : s.rtc_dev_fd with
  | some fd => simpa [hfd] using h
  | none =>
    rw [hfd] at h
    simp only [Option.isSome_none] at h
    cases hctl : c.rtc_dev_name with
    | some path =>
      cases henv : env path <;> simp [henv, h]
    | none =>
      rcases hpr : (probeLoop env fls).1 with _ | ⟨p, res⟩
      · simp [hpr, h]
      · cases res <;> simp [hpr, h]

/-- The registration invariant holds after any sequence of `open_rtc`
calls started from the initial state. -/
theorem runCalls_atexit_inv (calls : List (HwclockControl × OpenEnv))
    (s : RtcState)
    (h : s.atexitRegistrations = if s.rtc_dev_fd.isSome then 1 else 0) :
    (runCalls calls s).atexitRegistrations =
      if (runCalls calls s).rtc_dev_fd.isSome then 1 else 0 := by
  induction calls generalizing s with
  | nil => exact h
  | cons c rest ih =>
    simpa [runCalls] using
      ih (open_rtc c.1 c.2 s).1 (open_rtc_atexit_inv c.1 c.2 s h)

/-- C9: after any sequence of resolve calls that left a live handle,
a further `open_rtc` call returns the same cached handle with the
state — in particular the probe-attempt counter — unchanged, and the
process-exit release hook has been registered exactly once over all
the calls (and stays registered exactly once). -/
theorem C9_caching_single_registration
    (calls : List (HwclockControl × OpenEnv))
    (c : HwclockControl × OpenEnv) (fd : Nat)
    (h : (runCalls calls initState).rtc_dev_fd = some fd) :
    open_rtc c.1 c.2 (runCalls calls initState) =
      (runCalls calls initState, some fd) ∧
    (open_rtc c.1 c.2 (runCalls calls initState)).1.probeAttempts =
      (runCalls calls initState).probeAttempts ∧
    (runCalls calls initState).atexitRegistrations = 1 ∧
    (open_rtc c.1 c.2 (runCalls calls initState)).1.atexitRegistrations =
      1 := by
  have hc := open_rtc_cached c.1 c.2 (runCalls calls initState) fd h
  have hi := runCalls_atexit_inv calls initState rfl
  rw [h] at hi
  simp only [Option.isSome_some, if_pos] at hi
  exact ⟨hc, by rw [hc], hi, by rw [hc]; exact hi⟩

/-- C9 witness: after one successful probe (environment
`envSkipThenOk`, handle 3 found at the second candidate), a second
resolve returns the cached handle with the state unchanged and the
exit hook registered exactly once. -/
theorem C9_witness :
    open_rtc probeCtl envSkipThenOk
        (runCalls [(probeCtl, envSkipThenOk)] initState) =
      (runCalls [(probeCtl, envSkipThenOk)] initState, some 3) ∧
    (open_rtc probeCtl envSkipThenOk
        (runCalls [(probeCtl, envSkipThenOk)] initState)).1.probeAttempts =
      (runCalls [(probeCtl, envSkipThenOk)] initState).probeAttempts ∧
    (runCalls [(probeCtl, envSkipThenOk)] initState).atexitRegistrations =
      1 ∧
    (open_rtc probeCtl envSkipThenOk
        (runCalls [(probeCtl, envSkipThenOk)] initState)).1.atexitRegistrations =
      1 :=
  C9_caching_single_registration [(probeCtl, envSkipThenOk)]
    (probeCtl, envSkipThenOk) 3 rfl

/-- A quiet iteration just moves the busy-wait loop to the next
iteration, consuming one unit of fuel. -/
theorem busyLoop_step (dev : BusyDevice) (s : Int) (b : Nat) (f i : Nat)
    (h : quietAt dev s b i) :
    busyLoop dev s b (f + 1) i = busyLoop dev s b f (i + 1) := by
  obtain ⟨tm, hr, hs, hm⟩ := h
  simp [busyLoop, do_rtc_read_ioctl, hr, hs, Nat.not_lt.mpr hm]

/-- `n` quiet iterations move the busy-wait loop `n` iterations
forward, consuming `n` units of fuel. -/
theorem busyLoop_run (dev : BusyDevice) (s : Int) (b : Nat) :
    ∀ n f i, (∀ j, i ≤ j → j < i + n → quietAt dev s b j) →
    busyLoop dev s b (f + n) i = busyLoop dev s b f (i + n) := by
  intro n
  induction n with
  | zero => intro f i _; rfl
  | succ n ih =>
    intro f i h
    have h0 : quietAt dev s b i := h i le_rfl (by omega)
    have e1 : f + (n + 1) = (f + n) + 1 := by omega
    rw [e1, busyLoop_step dev s b (f + n) i h0,
      ih f (i + 1) (fun j hj1 hj2 => h j (by omega) (by omega)),
      show (i + 1) + n = i + (n + 1) by omega]

/-- The busy-wait loop's behaviour depends on the device's reads only
through their success and their seconds field. -/
theorem busyLoop_sec_only (d1 d2 : BusyDevice)
    (hr : ∀ i, Option.map Tm.tm_sec (d1.reads i) =
      Option.map Tm.tm_sec (d2.reads i))
    (hm : ∀ i, d1.mono i = d2.mono i) (s : Int) (b : Nat) :
    ∀ f i, busyLoop d1 s b f i = busyLoop d2 s b f i := by
  intro f
  induction f with
  | zero => intro i; rfl
  | succ f ih =>
    intro i
    have h := hr i
    cases h1 : d1.reads i with
    | none =>
      cases h2 : d2.reads i with
      | none => simp [busyLoop, do_rtc_read_ioctl, h1, h2]
      | some b2 => rw [h1, h2] at h; simp at h
    | some a1 =>
      cases h2 : d2.reads i with
      | none => rw [h1, h2] at h; simp at h
      | some b2 =>
        rw [h1, h2] at h
        simp only [Option.map_some', Option.some.injEq] at h
        simp [busyLoop, do_rtc_read_ioctl, h1, h2, h, hm i, ih]

/-- C6: busy-wait behaviour.  With a successful baseline read (read 0)
and `k - 1` quiet loop iterations, the loop decides at iteration `k`:
a re-read whose seconds field differs from the baseline's succeeds, a
failed re-read yields IoError, and a monotonic time beyond the
1.5-second ceiling (with seconds unchanged) yields TimedOut.  Finally,
the loop compares only the seconds field: two devices whose reads
agree on success and on the seconds field (and whose monotonic clocks
agree) give identical outcomes. -/
theorem C6_busywait_behavior (dev : BusyDevice) (fuel k : Nat) (st : Tm)
    (h0 : dev.reads 0 = some st)
    (hq : ∀ j, 1 ≤ j → j < k → quietAt dev st.tm_sec (dev.mono 0) j)
    (hk : 1 ≤ k) (hfuel : k ≤ fuel) :
    (∀ tm, dev.reads k = some tm → tm.tm_sec ≠ st.tm_sec →
      busywait_for_rtc_clock_tick dev fuel = some .success) ∧
    (dev.reads k = none →
      busywait_for_rtc_clock_tick dev fuel = some .ioError) ∧
    (∀ tm, dev.reads k = some tm → tm.tm_sec = st.tm_sec →
      dev.mono 0 + 1500000 < dev.mono k →
      busywait_for_rtc_clock_tick dev fuel = some .timedOut) ∧
    (∀ (d1 d2 : BusyDevice) (f : Nat),
      (∀ i, Option.map Tm.tm_sec (d1.reads i) =
        Option.map Tm.tm_sec (d2.reads i)) →
      (∀ i, d1.mono i = d2.mono i) →
      busywait_for_rtc_clock_tick d1 f =
        busywait_for_rtc_clock_tick d2 f) := by
  have hbw : busywait_for_rtc_clock_tick dev fuel =
      busyLoop dev st.tm_sec (dev.mono 0) fuel 1 := by
    simp [busywait_for_rtc_clock_tick, do_rtc_read_ioctl, h0]
  obtain ⟨m, hm⟩ : ∃ m, fuel - (k - 1) = m + 1 :=
    ⟨fuel - (k - 1) - 1, by omega⟩
  have hrun : busyLoop dev st.tm_sec (dev.mono 0) fuel 1 =
      busyLoop dev st.tm_sec (dev.mono 0) (m + 1) k := by
    have e1 : fuel = (m + 1) + (k - 1) := by omega
    rw [e1, busyLoop_run dev st.tm_sec (dev.mono 0) (k - 1) (m + 1) 1
      (fun j hj1 hj2 => hq j hj1 (by omega)),
      show 1 + (k - 1) = k by omega]
  refine ⟨fun tm hr hne => ?_, fun hr => ?_,
    fun tm hr hs hmono => ?_, fun d1 d2 f hr hm2 => ?_⟩
  · rw [hbw, hrun]
    simp [busyLoop, do_rtc_read_ioctl, hr, hne]
  · rw [hbw, hrun]
    simp [busyLoop, do_rtc_read_ioctl, hr]
  · rw [hbw, hrun]
    simp [busyLoop, do_rtc_read_ioctl, hr, hs, hmono]
  · have h := hr 0
    cases h1 : d1.reads 0 with
    | none =>
      cases h2 : d2.reads 0 with
      | none =>
        simp [busywait_for_rtc_clock_tick, do_rtc_read_ioctl, h1, h2]
      | some b2 => rw [h1, h2] at h; simp at h
    | some a1 =>
      cases h2 : d2.reads 0 with
      | none => rw [h1, h2] at h; simp at h
      | some b2 =>
        rw [h1, h2] at h
        simp only [Option.map_some', Option.some.injEq] at h
        simp [busywait_for_rtc_clock_tick, do_rtc_read_ioctl, h1, h2, h,
          hm2 0, busyLoop_sec_only d1 d2 hr hm2]

/-- C6 witness: the busy-wait theorem evaluated on four concrete
devices — seconds change at the third re-read (success), a failing
second re-read (IoError), a never-ticking clock crossing the ceiling
at the fourth iteration (TimedOut), and a device differing from the
first only in non-seconds fields (identical outcome). -/
theorem C6_witness :
    busywait_for_rtc_clock_tick busyChangeAt3 10 = some .success ∧
    busywait_for_rtc_clock_tick busyReadFail 10 = some .ioError ∧
    busywait_for_rtc_clock_tick busyStuck 10 = some .timedOut ∧
    busywait_for_rtc_clock_tick busyChangeAt3 10 =
      busywait_for_rtc_clock_tick busyChangeAt3b 10 := by
  refine ⟨?_, ?_, ?_, ?_⟩
  · refine (C6_busywait_behavior busyChangeAt3 10 3 (secTm 7) rfl ?_
      (by omega) (by omega)).1 (secTm 8) rfl (by decide)
    intro j h1 h2
    interval_cases j <;>
      exact ⟨secTm 7, rfl, rfl, by norm_num [busyChangeAt3]⟩
  · refine (C6_busywait_behavior busyReadFail 10 2 (secTm 7) rfl ?_
      (by omega) (by omega)).2.1 rfl
    intro j h1 h2
    interval_cases j
    exact ⟨secTm 7, rfl, rfl, by norm_num [busyReadFail]⟩
  · refine (C6_busywait_behavior busyStuck 10 4 (secTm 7) rfl ?_
      (by omega) (by omega)).2.2.1 (secTm 7) rfl rfl (by norm_num [busyStuck])
    intro j h1 h2
    interval_cases j <;>
      exact ⟨secTm 7, rfl, rfl, by norm_num [busyStuck]⟩
  · refine (C6_busywait_behavior busyChangeAt3 10 3 (secTm 7) rfl ?_
      (by omega) (by omega)).2.2.2 busyChangeAt3 busyChangeAt3b 10
      (fun i => ?_) (fun i => rfl)
    · intro j h1 h2
      interval_cases j <;>
        exact ⟨secTm 7, rfl, rfl, by norm_num [busyChangeAt3]⟩
    · by_cases h : i < 3 <;> simp [busyChangeAt3, busyChangeAt3b, secTm, h]

end HwclockRtc
